import Mathlib

/-!
Verification development for the Gemini exchange client (`gemini.py`).

The Python module is embedded shallowly:

* Python values that can appear in request parameter mappings are modelled
  by `PyVal`; Python `dict`s are insertion-ordered association lists, and
  `dict` assignment (`d[k] = v`, which updates in place when the key exists
  and appends otherwise) is `assocSet`.
* The external libraries used by the module are embedded as pure functions:
  `json.dumps` (default separators, `ensure_ascii=True`) is `jsonDumps`,
  `base64.b64encode` is `b64encode`, `str.encode('utf-8')` is `utf8Encode`,
  and `hmac.new(key, msg, sha384).hexdigest()` is `hexdigest` over an
  arbitrary hash function `sha384 : List Nat → List Nat` supplied as a
  parameter (the SHA-384 compression itself lives in `hashlib`, outside the
  repository; every theorem below holds for an arbitrary hash).
* Effectful collaborators become explicit inputs: the `keyring` credential
  store is a function `String → String → Option String`
  (`keyring.get_password` returns `None` when the entry is absent), the
  wall clock read by `time.time()` is a rational-valued parameter, and the
  HTTP layer is modelled by returning the request that would be issued
  (`PrivOutcome`) instead of performing I/O.

Bytes are modelled as `List Nat` with byte values below 256 arising from the
encoders.
-/

/-- Line 14 of `gemini.py`: `BASE_URL = "https://api.sandbox.gemini.com"`. -/
def BASE_URL : String := "https://api.sandbox.gemini.com"

/-- Line 15: `API_VERSION = "v1"`. -/
def API_VERSION : String := "v1"

/-- Line 17: `KEYRING_NAMESPACE = "gemini_sandbox"`. -/
def KEYRING_NAMESPACE : String := "gemini_sandbox"

/-- Line 18: `KEYRING_API_KEY = "api_key"`. -/
def KEYRING_API_KEY : String := "api_key"

/-- Line 19: `KEYRING_API_SECRET = "api_secret"`. -/
def KEYRING_API_SECRET : String := "api_secret"

/-- A Python value as it can appear in a request parameter mapping or a
decoded JSON response: `None`, `bool`, `int`, `str`, `list`, `dict`
(insertion-ordered association list of string keys). -/
inductive PyVal : Type where
  | pyNone : PyVal
  | pyBool : Bool → PyVal
  | pyInt : Int → PyVal
  | pyStr : String → PyVal
  | pyList : List PyVal → PyVal
  | pyDict : List (String × PyVal) → PyVal

/-- Python `dict` assignment `d[k] = v`: if the key is present its value is
replaced in place (keeping its position); otherwise the pair is appended. -/
def assocSet {α β : Type} [DecidableEq α] : List (α × β) → α → β → List (α × β)
  | [], k, v => [(k, v)]
  | (k', v') :: t, k, v =>
    if k' = k then (k', v) :: t else (k', v') :: assocSet t k v

/-- First value bound to a key in an association list (Python `d[k]` /
`k in d` are expressed through this; real `dict`s have unique keys). -/
def assocGet {α β : Type} [DecidableEq α] : List (α × β) → α → Option β
  | [], _ => none
  | (k', v') :: t, k => if k' = k then some v' else assocGet t k

/-- Lowercase hexadecimal digit for a value below 16. -/
def hexDigit (n : Nat) : Char :=
  if n < 10 then Char.ofNat (48 + n) else Char.ofNat (87 + n)

/-- Four lowercase hex digits, as used by `json.dumps` for `\uXXXX` escapes. -/
def hex4 (n : Nat) : String :=
  String.mk [hexDigit (n / 4096 % 16), hexDigit (n / 256 % 16),
    hexDigit (n / 16 % 16), hexDigit (n % 16)]

/-- Escaping of one character inside a JSON string literal, following
`json.dumps` with its default `ensure_ascii=True`: the two mandatory
escapes, the short control escapes, `\uXXXX` for other control characters
and for every non-ASCII character (surrogate pairs above U+FFFF). -/
def jsonEscapeChar (c : Char) : String :=
  if c = '"' then "\\\""
  else if c = '\\' then "\\\\"
  else if c = '\n' then "\\n"
  else if c = '\r' then "\\r"
  else if c = '\t' then "\\t"
  else if c.toNat = 8 then "\\b"
  else if c.toNat = 12 then "\\f"
  else if c.toNat < 32 then "\\u" ++ hex4 c.toNat
  else if c.toNat < 127 then String.singleton c
  else if c.toNat < 65536 then "\\u" ++ hex4 c.toNat
  else
    "\\u" ++ hex4 (55296 + (c.toNat - 65536) / 1024) ++
      "\\u" ++ hex4 (56320 + (c.toNat - 65536) % 1024)

/-- A JSON string literal for `s`, per `json.dumps`. -/
def jsonQuote (s : String) : String :=
  "\"" ++ String.join (s.data.map jsonEscapeChar) ++ "\""

mutual

/-- Embedding of `json.dumps` (line 49) with its default separators
`", "` and `": "` and default key order (insertion order of the dict). -/
def jsonDumps : PyVal → String
  | .pyNone => "null"
  | .pyBool b => cond b "true" "false"
  | .pyInt n => toString n
  | .pyStr s => jsonQuote s
  | .pyList xs => "[" ++ String.intercalate ", " (jsonDumpsList xs) ++ "]"
  | .pyDict kvs => "\x7b" ++ String.intercalate ", " (jsonDumpsPairs kvs) ++ "\x7d"

/-- Serializations of the elements of a JSON array, in order. -/
def jsonDumpsList : List PyVal → List String
  | [] => []
  | x :: t => jsonDumps x :: jsonDumpsList t

/-- Serializations `"key": value` of the entries of a JSON object, in order. -/
def jsonDumpsPairs : List (String × PyVal) → List String
  | [] => []
  | (k, v) :: t => (jsonQuote k ++ ": " ++ jsonDumps v) :: jsonDumpsPairs t

end

/-- UTF-8 encoding of one code point, as a list of bytes. -/
def utf8Char (c : Char) : List Nat :=
  let n := c.toNat
  if n < 128 then [n]
  else if n < 2048 then [192 + n / 64, 128 + n % 64]
  else if n < 65536 then [224 + n / 4096, 128 + n / 64 % 64, 128 + n % 64]
  else [240 + n / 262144, 128 + n / 4096 % 64, 128 + n / 64 % 64, 128 + n % 64]

/-- Embedding of `str.encode('utf-8')`: the UTF-8 bytes of a string. -/
def utf8Encode (s : String) : List Nat :=
  List.flatten (s.data.map utf8Char)

/-- Byte value of the standard base64 alphabet character at index `n < 64`. -/
def b64Char (n : Nat) : Nat :=
  if n < 26 then 65 + n
  else if n < 52 then 97 + (n - 26)
  else if n < 62 then 48 + (n - 52)
  else if n = 62 then 43
  else 47

/-- Embedding of `base64.b64encode` (line 51): standard alphabet with `=`
padding (61 is the byte value of `=`), mapping bytes to bytes. -/
def b64encode : List Nat → List Nat
  | [] => []
  | [a] => [b64Char (a / 4), b64Char (a % 4 * 16), 61, 61]
  | [a, b] => [b64Char (a / 4), b64Char (a % 4 * 16 + b / 16), b64Char (b % 16 * 4), 61]
  | a :: b :: c :: rest =>
    b64Char (a / 4) :: b64Char (a % 4 * 16 + b / 16) ::
      b64Char (b % 16 * 4 + c / 64) :: b64Char (c % 64) :: b64encode rest

/-- Lowercase hex encoding of a byte list, as `bytes.hex()` /
`hmac.hexdigest()` produce. -/
def hexLower (bs : List Nat) : String :=
  String.join (bs.map (fun b => String.mk [hexDigit (b / 16 % 16), hexDigit (b % 16)]))

/-- The padded HMAC key block: `hmac.new` hashes keys longer than the hash
block size (128 bytes for SHA-384) and zero-pads to the block size. -/
def hmacKeyBlock (hash : List Nat → List Nat) (key : List Nat) : List Nat :=
  let k := if 128 < key.length then hash key else key
  k ++ List.replicate (128 - k.length) 0

/-- RFC 2104 HMAC digest over an arbitrary hash function with a 128-byte
block, as computed by Python's `hmac` module for `sha384`. -/
def hmacDigest (hash : List Nat → List Nat) (key msg : List Nat) : List Nat :=
  let k := hmacKeyBlock hash key
  hash ((k.map (fun b => b ^^^ 92)) ++ hash ((k.map (fun b => b ^^^ 54)) ++ msg))

/-- Embedding of `hmac.new(key, msg, sha384).hexdigest()` (line 54):
the HMAC digest, hex-encoded lowercase. -/
def hexdigest (hash : List Nat → List Nat) (key msg : List Nat) : String :=
  hexLower (hmacDigest hash key msg)

/-- Value of an HTTP header in the `headers` dict of `private_req`: the
constant headers and the signature are `str`, the payload is `bytes`
(`b64encode` returns bytes), and a missing api key puts `None` in the dict
(`keyring.get_password` returns `None`). -/
inductive HeaderVal : Type where
  | hStr : String → HeaderVal
  | hBytes : List Nat → HeaderVal
  | hNone : HeaderVal

/-- Turn the result of `keyring.get_password(..., KEYRING_API_KEY)` into the
header value stored at `'X-GEMINI-APIKEY'`. -/
def optHeader : Option String → HeaderVal
  | none => .hNone
  | some s => .hStr s

/-- The HTTP request handed to `requests.request` by `private_req`
(line 67): method, URL, header dict, and body (no `data` argument is
passed, so the body is empty). -/
structure HttpRequest where
  method : String
  url : String
  headers : List (String × HeaderVal)
  body : String

/-- Execution of `private_req` up to the transport: either the call raises
before reaching `requests.request` (an `AttributeError` from
`None.encode('utf-8')` when the api secret is absent, line 54), or a
request is issued. -/
inductive PrivOutcome : Type where
  | attrError : PrivOutcome
  | issued : HttpRequest → PrivOutcome

/-- Whether a `private_req` run reached the transport and issued a request. -/
def PrivOutcome.isIssued : PrivOutcome → Bool
  | .attrError => false
  | .issued _ => true

/-- Embedding of `private_req` (lines 44-68).  The effectful inputs are
explicit: `sha384` is the hash from `hashlib`, `keyring` the credential
store, and `nonce` the value `get_timestamp_ms()` returned for this call.
The function mirrors the source line by line: build the versioned path,
insert `request` and `nonce` into the parameter dict, JSON-serialize,
base64-encode the UTF-8 bytes, fetch the secret (raising if absent), sign,
fetch the key, assemble the header dict, and POST to
`BASE_URL + version_path` with those headers and no body. -/
def private_req (sha384 : List Nat → List Nat)
    (keyring : String → String → Option String) (nonce : Int)
    (url_path : String) (parameters : List (String × PyVal)) : PrivOutcome :=
  let version_path := "/" ++ API_VERSION ++ "/" ++ url_path
  let parameters := assocSet parameters "request" (.pyStr version_path)
  let parameters := assocSet parameters "nonce" (.pyInt nonce)
  let param_json := jsonDumps (.pyDict parameters)
  let b64 := b64encode (utf8Encode param_json)
  match keyring KEYRING_NAMESPACE KEYRING_API_SECRET with
  | none => .attrError
  | some api_secret =>
    let signature := hexdigest sha384 (utf8Encode api_secret) b64
    let api_key := keyring KEYRING_NAMESPACE KEYRING_API_KEY
    let headers : List (String × HeaderVal) :=
      [("Content-Type", .hStr "text/plain"),
       ("Content-Length", .hStr "0"),
       ("X-GEMINI-APIKEY", optHeader api_key),
       ("X-GEMINI-PAYLOAD", .hBytes b64),
       ("X-GEMINI-SIGNATURE", .hStr signature),
       ("Cache-Control", .hStr "no-cache")]
    let url := BASE_URL ++ version_path
    .issued { method := "POST", url := url, headers := headers, body := "" }

/-- The payload as the specification describes it: insert
`request = "/" + API_VERSION + "/" + endpoint_path` and `nonce` into the
parameter mapping, serialize to JSON, and base64-encode the UTF-8 bytes of
that JSON. -/
def spec_payload_b64 (url_path : String) (parameters : List (String × PyVal))
    (nonce : Int) : List Nat :=
  b64encode (utf8Encode (jsonDumps (.pyDict
    (assocSet (assocSet parameters "request"
      (.pyStr ("/" ++ API_VERSION ++ "/" ++ url_path))) "nonce" (.pyInt nonce)))))

/-- The signature as the specification describes it: HMAC-SHA384 keyed by
the UTF-8 bytes of the api secret over the base64 payload, hex-encoded
lowercase. -/
def spec_signature (sha384 : List Nat → List Nat) (api_secret : String)
    (url_path : String) (parameters : List (String × PyVal)) (nonce : Int) : String :=
  hexLower (hmacDigest sha384 (utf8Encode api_secret)
    (spec_payload_b64 url_path parameters nonce))

/-- A Python exception as raised by the embedded fragments: `TypeError`,
`KeyError` for a missing dict key, and `RuntimeError`.  The `RuntimeError`
raised by `parse_response` (line 34) formats two values into its message;
the embedding keeps the two values themselves. -/
inductive PyErr : Type where
  | typeError : PyErr
  | keyError : String → PyErr
  | runtimeError : PyVal → PyVal → PyErr
  | runtimeErrorMsg : String → PyErr

/-- Whether the character list `n` is an initial segment of `h`. -/
def listStarts : List Char → List Char → Bool
  | [], _ => true
  | _ :: _, [] => false
  | a :: as, b :: bs => a == b && listStarts as bs

/-- Whether `n` occurs as a contiguous segment of `h`. -/
def listHasSub (n : List Char) : List Char → Bool
  | [] => n.isEmpty
  | b :: bs => listStarts n (b :: bs) || listHasSub n bs

/-- Python's `key in data` for a string key: key membership on a dict,
element equality on a list, substring test on a string, and `TypeError`
("argument ... is not iterable") on `None`, booleans and numbers. -/
def pyContains (key : String) : PyVal → Except PyErr Bool
  | .pyDict kvs => .ok (assocGet kvs key).isSome
  | .pyList xs => .ok (xs.any (fun v => match v with
      | .pyStr s => s = key
      | _ => false))
  | .pyStr s => .ok (listHasSub key.data s.data)
  | _ => .error .typeError

/-- Python's `data[key]` for a string key: dict lookup (`KeyError` when the
key is absent) and `TypeError` on every other value (string and list
indices must be integers; `None` and numbers are not subscriptable). -/
def pyIndex (key : String) : PyVal → Except PyErr PyVal
  | .pyDict kvs =>
    match assocGet kvs key with
    | some v => .ok v
    | none => .error (.keyError key)
  | _ => .error .typeError

/-- Embedding of `parse_response` (lines 31-35), applied to the value the
response body decodes to (`json.loads` itself lives in the `json` library;
the source passes its result straight to this logic):
`if 'result' in data and data['result'] == 'error':` raise a
`RuntimeError` formatted from `data['reason']` and `data['message']`,
`return data` otherwise.  Python evaluates `data['reason']` first, so a
missing `reason` key raises its `KeyError` before `message` is read. -/
def parse_response_data (data : PyVal) : Except PyErr PyVal :=
  match pyContains "result" data with
  | .error e => .error e
  | .ok false => .ok data
  | .ok true =>
    match pyIndex "result" data with
    | .error e => .error e
    | .ok r =>
      match r with
      | .pyStr s =>
        if s = "error" then
          match pyIndex "reason" data with
          | .error e => .error e
          | .ok reason =>
            match pyIndex "message" data with
            | .error e => .error e
            | .ok message => .error (.runtimeError reason message)
        else .ok data
      | _ => .ok data

/-- Python truthiness (`if client_id:`): `None`, `False`, `0`, empty
strings and empty containers are falsy; everything else is truthy. -/
def pyTruthy : PyVal → Bool
  | .pyNone => false
  | .pyBool b => b
  | .pyInt n => n ≠ 0
  | .pyStr s => s ≠ ""
  | .pyList xs => ¬ xs.isEmpty
  | .pyDict kvs => ¬ kvs.isEmpty

mutual

/-- Python `repr` for the modelled values (used inside containers by
`str`); string escaping inside `repr` is not needed by any claim and the
embedding prints the bare characters between the quotes. -/
def pyRepr : PyVal → String
  | .pyNone => "None"
  | .pyBool b => cond b "True" "False"
  | .pyInt n => toString n
  | .pyStr s => "'" ++ s ++ "'"
  | .pyList xs => "[" ++ String.intercalate ", " (pyReprList xs) ++ "]"
  | .pyDict kvs => "\x7b" ++ String.intercalate ", " (pyReprPairs kvs) ++ "\x7d"

/-- Representations of the elements of a list, in order. -/
def pyReprList : List PyVal → List String
  | [] => []
  | x :: t => pyRepr x :: pyReprList t

/-- Representations `'key': value` of the entries of a dict, in order. -/
def pyReprPairs : List (String × PyVal) → List String
  | [] => []
  | (k, v) :: t => ("'" ++ k ++ "': " ++ pyRepr v) :: pyReprPairs t

end

/-- Python `str(x)`, as `"{}".format(x)` computes it: the string itself for
a `str`, `repr`-style text otherwise. -/
def pyStrOf : PyVal → String
  | .pyStr s => s
  | v => pyRepr v

/-- The parameter dict built by `new_order` (lines 84-96): `symbol`,
`amount` and `price` are formatted with `"{}".format`, `side` is passed
through, `type` is always `'exchange limit'`, `options` is `[]`, and
`client_order_id` is added only when `client_id` is truthy. -/
def new_order_params (symbol amount price : PyVal) (side : String)
    (client_id : PyVal) : List (String × PyVal) :=
  let params : List (String × PyVal) :=
    [("symbol", .pyStr (pyStrOf symbol)),
     ("amount", .pyStr (pyStrOf amount)),
     ("price", .pyStr (pyStrOf price)),
     ("side", .pyStr side),
     ("type", .pyStr "exchange limit"),
     ("options", .pyList [])]
  if pyTruthy client_id then assocSet params "client_order_id" client_id
  else params

/-- Embedding of `new_order` (lines 71-98): build the parameter dict and
delegate to `private_req("order/new", params)`. -/
def new_order (sha384 : List Nat → List Nat)
    (keyring : String → String → Option String) (nonce : Int)
    (symbol amount price : PyVal) (side : String)
    (client_id : PyVal) : PrivOutcome :=
  private_req sha384 keyring nonce "order/new"
    (new_order_params symbol amount price side client_id)

/-- Python `int(q)` on a real number: truncation toward zero. -/
def ratTrunc (q : ℚ) : ℤ :=
  if 0 ≤ q then ⌊q⌋ else ⌈q⌉

/-- Embedding of `get_timestamp_ms` (lines 21-23):
`int(time.time() * 1000)`, where `t` is the value `time.time()` returned
(the float is modelled as an exact rational). -/
def get_timestamp_ms (t : ℚ) : ℤ :=
  ratTrunc (t * 1000)

/-- The `Order` record (lines 146-163): `price` is required
(`Decimal(data['price'])`), every other field is read through `read_field`
and is therefore optional.  `Decimal` values are modelled as rationals. -/
structure Order where
  price : ℚ
  amount : Option ℚ
  id : Option ℚ
  client_id : Option ℚ
  symbol : Option String
  exchange : Option String
  avg_execution_price : Option ℚ
  side : Option String
  type : Option String
  options : Option PyVal
  timestamp : Option ℚ
  timestamp_ms : Option ℚ
  is_live : Option Bool
  is_cancelled : Option Bool
  executed_amount : Option ℚ
  remaining_amount : Option ℚ
  original_amount : Option ℚ

/-- The `OrderBook` state (lines 253-270): symbol, per-request limits, the
last fetched sides, and the last request timestamp. -/
structure OrderBook where
  symbol : String
  limit_bids : ℤ
  limit_asks : ℤ
  bids : Option (List Order)
  asks : Option (List Order)
  last_request_ts : Option ℤ

/-- The `TradeManager` state (lines 284-289): an order book, the symbol,
and the two per-side order collections, `OrderedDict`s keyed by
`order.id` (which `read_field` may have left as `None`). -/
structure TradeManager where
  order_book : OrderBook
  symbol : String
  buy_orders : List (Option ℚ × Order)
  sell_orders : List (Option ℚ × Order)

/-- Embedding of `TradeManager._update_order` (lines 331-340): return
unchanged when the order's symbol differs from the manager's; otherwise
store the order under its id in the side's collection, and for any other
side raise (`RuntimeError('Unkown order side: ' + order.side)`; when the
side is `None` the string concatenation itself raises `TypeError`). -/
def TradeManager.update_order (self : TradeManager) (order : Order) :
    Except PyErr TradeManager :=
  if order.symbol ≠ some self.symbol then .ok self
  else if order.side = some "buy" then
    .ok { self with buy_orders := assocSet self.buy_orders order.id order }
  else if order.side = some "sell" then
    .ok { self with sell_orders := assocSet self.sell_orders order.id order }
  else
    match order.side with
    | none => .error .typeError
    | some s => .error (.runtimeErrorMsg ("Unkown order side: " ++ s))

/-- Embedding of `TradeManager.cancel_all` (lines 304-307): issue
`private_req('orer/cancel/all', {})` — the endpoint string is exactly the
source's — and, when the call did not raise, reset both order collections
(the source rebinds them to plain lists `[]`). -/
def TradeManager.cancel_all (sha384 : List Nat → List Nat)
    (keyring : String → String → Option String) (nonce : Int)
    (self : TradeManager) : PrivOutcome × TradeManager :=
  match private_req sha384 keyring nonce "orer/cancel/all" [] with
  | .attrError => (.attrError, self)
  | .issued r => (.issued r, { self with buy_orders := [], sell_orders := [] })

/-! ## Helper definitions for concrete instantiations -/

/-- The header names of the request a `private_req` run issued (empty when
the run raised before the transport). -/
def outcomeHeaderNames : PrivOutcome → List String
  | .attrError => []
  | .issued r => r.headers.map Prod.fst

/-- The URL of the request a `private_req` run issued, if any. -/
def outcomeUrl : PrivOutcome → Option String
  | .attrError => none
  | .issued r => some r.url

/-- A stand-in hash function used only to instantiate theorems at concrete
inputs; every universally quantified theorem holds for it. -/
def hash0 : List Nat → List Nat := fun _ => []

/-- A credential store holding the same value for every entry. -/
def kr1 : String → String → Option String := fun _ _ => some "k"

/-- A credential store with no entries at all. -/
def krEmpty : String → String → Option String := fun _ _ => none

/-- A credential store holding an api secret but no api key. -/
def krNoKey : String → String → Option String :=
  fun _ name => if name = "api_secret" then some "hunter2" else none

/-- A credential store answering every lookup with the entry name. -/
def krA : String → String → Option String := fun _ name => some name

/-- A credential store agreeing with `krA` on the two credential entries and
on nothing else. -/
def krB : String → String → Option String :=
  fun _ name =>
    if name = "api_key" then some "api_key"
    else if name = "api_secret" then some "api_secret"
    else none

/-- A wall-clock trace that steps backwards between call 0 and call 1. -/
def clock_cex : ℕ → ℚ := fun k => if k = 0 then 2 else 1

/-- A monotone wall-clock trace. -/
def clock_w : ℕ → ℚ := fun k => (k : ℚ)

/-- An order book in its initial state for symbol `btcusd`. -/
def ob0 : OrderBook :=
  { symbol := "btcusd", limit_bids := 50, limit_asks := 50,
    bids := none, asks := none, last_request_ts := none }

/-- A trade manager in its initial state for symbol `btcusd`. -/
def tm0 : TradeManager :=
  { order_book := ob0, symbol := "btcusd", buy_orders := [], sell_orders := [] }

/-- An order for a different symbol (`ethusd`) than `tm0` manages. -/
def o1 : Order :=
  { price := 100, amount := some 1, id := some 7, client_id := none,
    symbol := some "ethusd", exchange := some "gemini",
    avg_execution_price := none, side := some "buy", type := none,
    options := none, timestamp := none, timestamp_ms := none,
    is_live := some true, is_cancelled := some false,
    executed_amount := none, remaining_amount := none, original_amount := some 1 }

/-- Truncation toward zero is monotone (helper for the nonce theorems). -/
theorem ratTrunc_mono {q1 q2 : ℚ} (h : q1 ≤ q2) : ratTrunc q1 ≤ ratTrunc q2 := by
  unfold ratTrunc
  split_ifs with h1 h2 h3
  · exact Int.floor_mono h
  · exact absurd (h1.trans h) h2
  · calc ⌈q1⌉ ≤ 0 := Int.ceil_le.mpr (by exact_mod_cast le_of_not_le h1)
      _ ≤ ⌊q2⌋ := Int.floor_nonneg.mpr h3
  · exact Int.ceil_mono h

/-! ## Claims -/

/-- C1: for every endpoint path, parameter mapping, nonce and credential
store that holds an api secret, `private_req` issues a request whose
payload header is the base64 encoding of the UTF-8 bytes of the JSON
serialization of the parameter mapping extended with
`request = "/" + API_VERSION + "/" + path` and `nonce`, and whose
signature header is the HMAC-SHA384 of that base64 payload keyed by the
UTF-8 bytes of the api secret, hex-encoded lowercase
(`spec_payload_b64` and `spec_signature` are written from the
specification's wording of the algorithm). -/
theorem private_req_signing_pipeline (sha384 : List Nat → List Nat)
    (keyring : String → String → Option String) (nonce : Int)
    (url_path : String) (parameters : List (String × PyVal)) (api_secret : String)
    (hs : keyring KEYRING_NAMESPACE KEYRING_API_SECRET = some api_secret) :
    ∃ r, private_req sha384 keyring nonce url_path parameters = .issued r ∧
      assocGet r.headers "X-GEMINI-PAYLOAD" =
        some (.hBytes (spec_payload_b64 url_path parameters nonce)) ∧
      assocGet r.headers "X-GEMINI-SIGNATURE" =
        some (.hStr (spec_signature sha384 api_secret url_path parameters nonce)) := by
  unfold private_req
  rw [hs]
  exact ⟨_, rfl, rfl, rfl⟩

/-- Witness for C1 at a concrete input. -/
theorem private_req_signing_pipeline_witness :
    kr1 KEYRING_NAMESPACE KEYRING_API_SECRET = some "k" ∧
    ∃ r, private_req hash0 kr1 0 "order/new" [] = .issued r ∧
      assocGet r.headers "X-GEMINI-PAYLOAD" =
        some (.hBytes (spec_payload_b64 "order/new" [] 0)) ∧
      assocGet r.headers "X-GEMINI-SIGNATURE" =
        some (.hStr (spec_signature hash0 "k" "order/new" [] 0)) :=
  ⟨rfl, private_req_signing_pipeline hash0 kr1 0 "order/new" [] "k" rfl⟩

/-- C2 (counterexample): the claim says the header mapping uses the name
`X-API-KEY`; at a concrete signed request the assembled header names do not
include it (the source uses `X-GEMINI-APIKEY`). -/
theorem private_req_header_names_cex :
    ¬ ("X-API-KEY" ∈ outcomeHeaderNames (private_req hash0 kr1 0 "balances" [])) := by
  decide

/-- C2 (amended): for every signed private request the assembled header
mapping is exactly `Content-Type: text/plain`, `Content-Length: 0`,
`X-GEMINI-APIKEY` carrying the api key, `X-GEMINI-PAYLOAD` carrying the
base64 payload, `X-GEMINI-SIGNATURE` carrying the hex signature, and
`Cache-Control: no-cache`, in that order. -/
theorem private_req_header_names_amended (sha384 : List Nat → List Nat)
    (keyring : String → String → Option String) (nonce : Int)
    (url_path : String) (parameters : List (String × PyVal)) (api_secret : String)
    (hs : keyring KEYRING_NAMESPACE KEYRING_API_SECRET = some api_secret) :
    ∃ r, private_req sha384 keyring nonce url_path parameters = .issued r ∧
      r.headers = [("Content-Type", .hStr "text/plain"),
       ("Content-Length", .hStr "0"),
       ("X-GEMINI-APIKEY", optHeader (keyring KEYRING_NAMESPACE KEYRING_API_KEY)),
       ("X-GEMINI-PAYLOAD", .hBytes (spec_payload_b64 url_path parameters nonce)),
       ("X-GEMINI-SIGNATURE", .hStr (spec_signature sha384 api_secret url_path parameters nonce)),
       ("Cache-Control", .hStr "no-cache")] := by
  unfold private_req
  rw [hs]
  exact ⟨_, rfl, rfl⟩

/-- Witness for the amended C2 at a concrete input. -/
theorem private_req_header_names_amended_witness :
    kr1 KEYRING_NAMESPACE KEYRING_API_SECRET = some "k" ∧
    ∃ r, private_req hash0 kr1 0 "orders" [] = .issued r ∧
      r.headers = [("Content-Type", .hStr "text/plain"),
       ("Content-Length", .hStr "0"),
       ("X-GEMINI-APIKEY", optHeader (kr1 KEYRING_NAMESPACE KEYRING_API_KEY)),
       ("X-GEMINI-PAYLOAD", .hBytes (spec_payload_b64 "orders" [] 0)),
       ("X-GEMINI-SIGNATURE", .hStr (spec_signature hash0 "k" "orders" [] 0)),
       ("Cache-Control", .hStr "no-cache")] :=
  ⟨rfl, private_req_header_names_amended hash0 kr1 0 "orders" [] "k" rfl⟩

/-- C3 (counterexample): the claim says every decoded value that is not the
error envelope is returned unchanged; the decoded value `5` (a legal JSON
body) is instead rejected with a `TypeError`, because
`'result' in data` is applied to a non-iterable. -/
theorem parse_response_passthrough_cex :
    parse_response_data (.pyInt 5) = .error .typeError ∧
      parse_response_data (.pyInt 5) ≠ .ok (.pyInt 5) :=
  ⟨rfl, fun h => Except.noConfusion h⟩

/-- C3 (amended): a decoded object whose `result` entry is the string
`error` fails with the error carrying the object's `reason` and `message`
values; a decoded value on which the membership test for `result` is false
(an object without the key, a list without the element, a string without
the substring) is returned unchanged with no further validation, as is an
object whose `result` entry is any other value; decoded numbers, booleans
and `null` instead raise a `TypeError` from the membership test. -/
theorem parse_response_envelope_amended :
    (∀ kvs r m, assocGet kvs "result" = some (.pyStr "error") →
       assocGet kvs "reason" = some r → assocGet kvs "message" = some m →
       parse_response_data (.pyDict kvs) = .error (.runtimeError r m)) ∧
    (∀ d, pyContains "result" d = .ok false → parse_response_data d = .ok d) ∧
    (∀ kvs s, assocGet kvs "result" = some (.pyStr s) → s ≠ "error" →
       parse_response_data (.pyDict kvs) = .ok (.pyDict kvs)) ∧
    (∀ kvs v, assocGet kvs "result" = some v → (∀ s, v ≠ .pyStr s) →
       parse_response_data (.pyDict kvs) = .ok (.pyDict kvs)) ∧
    (∀ n : Int, parse_response_data (.pyInt n) = .error .typeError) ∧
    (∀ b : Bool, parse_response_data (.pyBool b) = .error .typeError) ∧
    (parse_response_data .pyNone = .error .typeError) := by
  refine ⟨?_, ?_, ?_, ?_, fun _ => rfl, fun _ => rfl, rfl⟩
  · intro kvs r m hr hre hm
    simp [parse_response_data, pyContains, pyIndex, hr, hre, hm]
  · intro d h
    simp [parse_response_data, h]
  · intro kvs s hr hne
    simp [parse_response_data, pyContains, pyIndex, hr, hne]
  · intro kvs v hr hnv
    cases v <;> first
      | exact absurd rfl (hnv _)
      | simp [parse_response_data, pyContains, pyIndex, hr]

/-- Witness for the amended C3: the specification's own example envelope
fails with the error carrying both fields, and the ticker-like object
passes through unchanged. -/
theorem parse_response_envelope_amended_witness :
    assocGet [("result", PyVal.pyStr "error"), ("reason", PyVal.pyStr "InvalidSignature"),
        ("message", PyVal.pyStr "bad sig")] "result" = some (.pyStr "error") ∧
    parse_response_data (.pyDict [("result", PyVal.pyStr "error"),
        ("reason", PyVal.pyStr "InvalidSignature"), ("message", PyVal.pyStr "bad sig")]) =
      .error (.runtimeError (.pyStr "InvalidSignature") (.pyStr "bad sig")) ∧
    parse_response_data (.pyDict [("bid", PyVal.pyStr "100.5"),
        ("ask", PyVal.pyStr "101.0"), ("last", PyVal.pyStr "100.8")]) =
      .ok (.pyDict [("bid", PyVal.pyStr "100.5"), ("ask", PyVal.pyStr "101.0"),
        ("last", PyVal.pyStr "100.8")]) :=
  ⟨rfl,
   parse_response_envelope_amended.1 _ _ _ rfl rfl rfl,
   parse_response_envelope_amended.2.1 _ rfl⟩

/-- C4 (counterexample): the claim says a missing api key makes the call
fail with a credentials error before any network request; with a store
holding a secret but no api key, the signing completes and a request is
issued to the transport. -/
theorem private_req_missing_key_cex :
    (private_req hash0 krNoKey 0 "balances" []).isIssued = true := by
  decide

/-- C4 (amended): when the credential store has no api secret the call
raises (the `AttributeError` from `None.encode`) before any request is
issued; when only the api key is missing there is no failure before the
transport — the request is issued with `None` as the value of the
`X-GEMINI-APIKEY` header. -/
theorem private_req_missing_credentials_amended (sha384 : List Nat → List Nat)
    (keyring : String → String → Option String) (nonce : Int)
    (url_path : String) (parameters : List (String × PyVal)) :
    (keyring KEYRING_NAMESPACE KEYRING_API_SECRET = none →
      private_req sha384 keyring nonce url_path parameters = .attrError) ∧
    (∀ s, keyring KEYRING_NAMESPACE KEYRING_API_SECRET = some s →
      keyring KEYRING_NAMESPACE KEYRING_API_KEY = none →
      ∃ r, private_req sha384 keyring nonce url_path parameters = .issued r ∧
        assocGet r.headers "X-GEMINI-APIKEY" = some .hNone) := by
  constructor
  · intro h
    unfold private_req
    rw [h]
  · intro s hs hk
    unfold private_req
    rw [hs, hk]
    exact ⟨_, rfl, rfl⟩

/-- Witness for the amended C4 at concrete inputs: an empty store raises
before the transport, and a store missing only the api key issues a
request carrying `None` for the api key header. -/
theorem private_req_missing_credentials_amended_witness :
    (krEmpty KEYRING_NAMESPACE KEYRING_API_SECRET = none ∧
      private_req hash0 krEmpty 0 "balances" [] = .attrError) ∧
    (krNoKey KEYRING_NAMESPACE KEYRING_API_SECRET = some "hunter2" ∧
      krNoKey KEYRING_NAMESPACE KEYRING_API_KEY = none ∧
      ∃ r, private_req hash0 krNoKey 0 "balances" [] = .issued r ∧
        assocGet r.headers "X-GEMINI-APIKEY" = some .hNone) :=
  ⟨⟨rfl, (private_req_missing_credentials_amended hash0 krEmpty 0 "balances" []).1 rfl⟩,
   ⟨by decide, by decide,
    (private_req_missing_credentials_amended hash0 krNoKey 0 "balances" []).2
      "hunter2" (by decide) (by decide)⟩⟩

/-- C5: every private call with an api secret available issues a POST to
`BASE_URL` concatenated with the versioned path, with an empty body (the
payload travels only in the headers). -/
theorem private_req_transport_post (sha384 : List Nat → List Nat)
    (keyring : String → String → Option String) (nonce : Int)
    (url_path : String) (parameters : List (String × PyVal)) (api_secret : String)
    (hs : keyring KEYRING_NAMESPACE KEYRING_API_SECRET = some api_secret) :
    ∃ r, private_req sha384 keyring nonce url_path parameters = .issued r ∧
      r.method = "POST" ∧
      r.url = BASE_URL ++ ("/" ++ API_VERSION ++ "/" ++ url_path) ∧
      r.body = "" := by
  unfold private_req
  rw [hs]
  exact ⟨_, rfl, rfl, rfl, rfl⟩

/-- Witness for C5 at a concrete input. -/
theorem private_req_transport_post_witness :
    kr1 KEYRING_NAMESPACE KEYRING_API_SECRET = some "k" ∧
    ∃ r, private_req hash0 kr1 0 "order/cancel" [] = .issued r ∧
      r.method = "POST" ∧
      r.url = BASE_URL ++ ("/" ++ API_VERSION ++ "/" ++ "order/cancel") ∧
      r.body = "" :=
  ⟨rfl, private_req_transport_post hash0 kr1 0 "order/cancel" [] "k" rfl⟩

/-- C6 (counterexample): the claim says a second nonce is never lower than
the first; on a wall-clock trace that steps backwards between the two
reads (which `get_timestamp_ms` does nothing to prevent), the second nonce
is strictly lower. -/
theorem get_timestamp_ms_rollback_cex :
    get_timestamp_ms (clock_cex 1) < get_timestamp_ms (clock_cex 0) := by
  norm_num [clock_cex, get_timestamp_ms, ratTrunc]

/-- C6 (amended): provided the wall clock did not go backwards between two
successive reads, the second nonce is never lower than the first
(`int(t * 1000)` is monotone in the clock value; the generator itself adds
no monotonicity enforcement). -/
theorem get_timestamp_ms_monotone_amended (clock : ℕ → ℚ) (k : ℕ)
    (h : clock k ≤ clock (k + 1)) :
    get_timestamp_ms (clock k) ≤ get_timestamp_ms (clock (k + 1)) := by
  unfold get_timestamp_ms
  exact ratTrunc_mono (mul_le_mul_of_nonneg_right h (by norm_num))

/-- Witness for the amended C6 on a monotone clock trace. -/
theorem get_timestamp_ms_monotone_amended_witness :
    clock_w 0 ≤ clock_w 1 ∧
      get_timestamp_ms (clock_w 0) ≤ get_timestamp_ms (clock_w 1) :=
  ⟨by norm_num [clock_w], get_timestamp_ms_monotone_amended clock_w 0 (by norm_num [clock_w])⟩

/-- C7: the claim says `cancel_all` targets the endpoint path
`order/cancel/all`; the source calls `private_req('orer/cancel/all', {})`
(line 305), so the issued request's URL ends in `/v1/orer/cancel/all`,
which differs from the versioned path the claim names — the spec itself
flags this endpoint string as a source typo, so the code, not the claim,
is at fault. -/
theorem cancel_all_endpoint_typo :
    outcomeUrl (TradeManager.cancel_all hash0 kr1 0 tm0).1 =
      some (BASE_URL ++ "/" ++ API_VERSION ++ "/orer/cancel/all") ∧
    BASE_URL ++ "/" ++ API_VERSION ++ "/orer/cancel/all" ≠
      BASE_URL ++ "/" ++ API_VERSION ++ "/order/cancel/all" := by
  constructor
  · decide
  · decide

/-- C8: the signing computation is deterministic — two runs with the same
hash, nonce, path and parameters, against credential stores that agree on
the api key and api secret entries, produce identical outcomes (identical
payload, signature and headers). -/
theorem private_req_deterministic (sha384 : List Nat → List Nat) (nonce : Int)
    (url_path : String) (parameters : List (String × PyVal))
    (k1 k2 : String → String → Option String)
    (hkey : k1 KEYRING_NAMESPACE KEYRING_API_KEY = k2 KEYRING_NAMESPACE KEYRING_API_KEY)
    (hsec : k1 KEYRING_NAMESPACE KEYRING_API_SECRET = k2 KEYRING_NAMESPACE KEYRING_API_SECRET) :
    private_req sha384 k1 nonce url_path parameters =
      private_req sha384 k2 nonce url_path parameters := by
  unfold private_req
  rw [hsec, hkey]

/-- Witness for C8: two different credential stores agreeing on the two
credential entries yield identical signed requests. -/
theorem private_req_deterministic_witness :
    krA KEYRING_NAMESPACE KEYRING_API_KEY = krB KEYRING_NAMESPACE KEYRING_API_KEY ∧
    krA KEYRING_NAMESPACE KEYRING_API_SECRET = krB KEYRING_NAMESPACE KEYRING_API_SECRET ∧
    private_req hash0 krA 0 "order/new" [] = private_req hash0 krB 0 "order/new" [] :=
  ⟨by decide, by decide,
   private_req_deterministic hash0 0 "order/new" [] krA krB (by decide) (by decide)⟩

/-- C9: the key `client_order_id` is in the parameter mapping `new_order`
passes to the signer exactly when the supplied `client_id` is truthy, and
a falsy `client_id` (such as `0`, `''` or `None`) produces the same
mapping as passing no client id (`None`) at all. -/
theorem new_order_client_order_id_iff_truthy
    (symbol amount price : PyVal) (side : String) (client_id : PyVal) :
    ("client_order_id" ∈ (new_order_params symbol amount price side client_id).map Prod.fst
        ↔ pyTruthy client_id = true) ∧
    (pyTruthy client_id = false →
      new_order_params symbol amount price side client_id =
        new_order_params symbol amount price side .pyNone) := by
  constructor
  · cases h : pyTruthy client_id <;> simp [new_order_params, h, assocSet]
  · intro h
    unfold new_order_params
    rw [h]
    rfl

/-- Witness for C9: the empty string is falsy, so the mapping built with
`client_id = ''` omits `client_order_id` and equals the mapping built with
no client id. -/
theorem new_order_client_order_id_iff_truthy_witness :
    pyTruthy (.pyStr "") = false ∧
    new_order_params (.pyStr "btcusd") (.pyStr "1.0") (.pyStr "9000.00") "buy" (.pyStr "") =
      new_order_params (.pyStr "btcusd") (.pyStr "1.0") (.pyStr "9000.00") "buy" .pyNone :=
  ⟨rfl,
   (new_order_client_order_id_iff_truthy (.pyStr "btcusd") (.pyStr "1.0")
      (.pyStr "9000.00") "buy" (.pyStr "")).2 rfl⟩

/-- C10: `_update_order` returns the manager unchanged whenever the
order's symbol differs from the manager's; when the symbols match, the
order is stored under its id in the collection selected by its side, and
any side other than `buy` or `sell` raises an error. -/
theorem update_order_symbol_frame (tm : TradeManager) (o : Order) :
    (o.symbol ≠ some tm.symbol → tm.update_order o = .ok tm) ∧
    (o.symbol = some tm.symbol →
      (o.side = some "buy" →
        tm.update_order o = .ok { tm with buy_orders := assocSet tm.buy_orders o.id o }) ∧
      (o.side = some "sell" →
        tm.update_order o = .ok { tm with sell_orders := assocSet tm.sell_orders o.id o }) ∧
      (o.side ≠ some "buy" → o.side ≠ some "sell" →
        ∃ e, tm.update_order o = .error e)) := by
  refine ⟨fun h => ?_, fun hsym => ⟨fun hside => ?_, fun hside => ?_, fun h1 h2 => ?_⟩⟩
  · simp [TradeManager.update_order, h]
  · simp [TradeManager.update_order, hsym, hside]
  · simp [TradeManager.update_order, hsym, hside]
  · cases hs : o.side with
    | none => exact ⟨.typeError, by simp [TradeManager.update_order, hsym, hs]⟩
    | some s =>
      have hb : s ≠ "buy" := fun e => h1 (by rw [hs, e])
      have hse : s ≠ "sell" := fun e => h2 (by rw [hs, e])
      exact ⟨.runtimeErrorMsg ("Unkown order side: " ++ s),
        by simp [TradeManager.update_order, hsym, hs, hb, hse]⟩

/-- Witness for C10: an `ethusd` order leaves a `btcusd` manager's state
untouched. -/
theorem update_order_symbol_frame_witness :
    o1.symbol ≠ some tm0.symbol ∧ tm0.update_order o1 = .ok tm0 :=
  ⟨by decide, (update_order_symbol_frame tm0 o1).1 (by decide)⟩
